import Mathlib

/-!
Verification development for the stock_pattern_detector client core:
the per-symbol asynchronous check controller (`Front/src/Pages/Dashboard.jsx`),
the ephemeral toast/notification queue (`components/ui/use-toast.jsx`),
and the backend health monitor (`Front/src/Layout.jsx`).

The JavaScript is embedded shallowly: React state updates become explicit
state passing, each async settlement path becomes a constructor of an
outcome type, and the nondeterministic toast id (`Math.random()`) becomes
an explicit parameter.
-/

/-! ### Toast queue (components/ui/use-toast.jsx, ToastProvider) -/

/-- A toast record, mirroring the object literal
`{ id, title, description, variant }` built inside `toast`.
The source object has exactly these four fields. -/
structure Toast where
  id : String
  title : String
  description : String
  variant : String
deriving DecidableEq, Repr

/-- The field list of the toast object literal, as (key, value) pairs in
source order — the shallow embedding of the JS object's own properties. -/
def Toast.fields (t : Toast) : List (String × String) :=
  [("id", t.id), ("title", t.title), ("description", t.description), ("variant", t.variant)]

/-- The toast time-to-live: `setTimeout(..., 3000)` in `toast`. -/
def toastTtlMs : Nat := 3000

/-- Everything one call to `toast` does: the new toasts list (after
`setToasts(prev => [...prev, newToast])`), the removal callbacks it
schedules via `setTimeout`, and its JS return value. -/
structure ToastCallResult where
  toasts : List Toast
  scheduled : List (String × Nat)
  ret : Option String
deriving DecidableEq, Repr

/-- Embedding of `toast({ title, description, variant = "default" })`.
The random id from `Math.random().toString(36).substring(2, 9)` is passed
in as `id`; an omitted `variant` is `none` and defaults to `"default"`.
The JS function body has no `return` statement, so `ret` is `none`
(JS `undefined`). -/
def toastCall (id title description : String) (variant : Option String)
    (prev : List Toast) : ToastCallResult :=
  { toasts := prev ++ [⟨id, title, description, variant.getD "default"⟩],
    scheduled := [(id, toastTtlMs)],
    ret := none }

/-- Embedding of the expiry callback
`setToasts(prev => prev.filter(t => t.id !== id))`. -/
def removeToast (id : String) (ts : List Toast) : List Toast :=
  ts.filter (fun t => t.id != id)

/-! ### Per-symbol check controller (Dashboard.jsx, checkPattern) -/

/-- Hard-coded base URL in `Dashboard.jsx`:
`const API_BASE_URL = "http://localhost:5000";`.
It takes the environment override as an argument only to show that the
source ignores it. -/
def Dashboard_API_BASE_URL (_env : Option String) : String :=
  "http://localhost:5000"

/-- The client-side deadline in `checkPattern`:
`setTimeout(() => controller.abort(), 3000)`. -/
def patternCheckTimeoutMs : Nat := 3000

/-- URL of the per-symbol check request, from
`fetch(API_BASE_URL + "/api/pattern?symbol=" + symbol)` (template literal). -/
def patternRequestUrl (env : Option String) (symbol : String) : String :=
  Dashboard_API_BASE_URL env ++ "/api/pattern?symbol=" ++ symbol

/-- Outcome of `await res.json()` on a response: either the JSON body fails
to parse (the promise rejects, control jumps to `catch`), or it parses and
carries the boolean `pattern_detected` field. -/
inductive Body where
  | malformed : Body
  | wellFormed (pattern_detected : Bool) : Body
deriving DecidableEq, Repr

/-- Settlement of the `fetch` in `checkPattern`: a response with an HTTP
status and a body, a transport/network failure (fetch rejects), or the
client 3000 ms deadline firing (`controller.abort()` makes fetch reject). -/
inductive FetchResult where
  | success (status : Nat) (body : Body) : FetchResult
  | transportError : FetchResult
  | timeout : FetchResult
deriving DecidableEq, Repr

/-- One observable state update performed by `checkPattern`:
a `setIsChecking` write, a `setStockResults` write, or a `toast(...)` call
(title, description, variant). -/
inductive Event where
  | setChecking (symbol : String) (b : Bool) : Event
  | setResult (symbol : String) (v : Option Bool) : Event
  | enqueueToast (title description variant : String) : Event
deriving DecidableEq, Repr

/-- The `catch (err)` block of `checkPattern`: one destructive toast with
the generic failure message, then `setStockResults(prev => {...prev, [symbol]: null})`. -/
def catchHandlerEvents (symbol : String) : List Event :=
  [Event.enqueueToast "Error"
      "Could not reach the server or received an invalid response." "destructive",
   Event.setResult symbol none]

/-- The success tail of the `try` block: `setStockResults` to the decoded
boolean, then the outcome toast whose title and variant depend on
`pattern_detected`. -/
def successEvents (symbol : String) (pd : Bool) : List Event :=
  [Event.setResult symbol (some pd),
   Event.enqueueToast
     (if pd then "Cup & Handle Pattern Detected" else "No Pattern Detected")
     ("Finished analyzing " ++ symbol ++ ".")
     (if pd then "default" else "destructive")]

/-- The `try`/`catch` body of `checkPattern` after the fetch settles:
a rejected fetch (transport failure or abort-on-timeout) runs the catch
block; a response with `!res.ok` throws into the catch block; a 2xx
response with an unparseable body rejects in `res.json()` into the catch
block; otherwise the success tail runs. `res.ok` is `200 <= status < 300`. -/
def tryEvents (symbol : String) (r : FetchResult) : List Event :=
  match r with
  | .transportError => catchHandlerEvents symbol
  | .timeout => catchHandlerEvents symbol
  | .success status body =>
    if 200 ≤ status ∧ status < 300 then
      match body with
      | .malformed => catchHandlerEvents symbol
      | .wellFormed pd => successEvents symbol pd
    else catchHandlerEvents symbol

/-- The full ordered update trace of one `checkPattern(symbol)` call:
`setIsChecking(..., true)` first, then the try/catch body, then the
`finally` block's `setIsChecking(..., false)`. -/
def checkPatternEvents (symbol : String) (r : FetchResult) : List Event :=
  Event.setChecking symbol true :: (tryEvents symbol r ++ [Event.setChecking symbol false])

/-- Dashboard component state: `stockResults` (JS `null`/`true`/`false`
becomes `Option Bool`), `isChecking` (an absent key is falsy, so the map
is total into `Bool`), and the toasts enqueued through `useToast`
(recorded as (title, description, variant) calls). -/
structure DashState where
  stockResults : String → Option Bool
  isChecking : String → Bool
  toasts : List (String × String × String)

/-- Effect of a single update event on the dashboard state; the functional
updaters `prev => ({...prev, [symbol]: v})` become pointwise updates. -/
def applyEvent (s : DashState) (e : Event) : DashState :=
  match e with
  | .setChecking sym b =>
    { s with isChecking := fun k => if k = sym then b else s.isChecking k }
  | .setResult sym v =>
    { s with stockResults := fun k => if k = sym then v else s.stockResults k }
  | .enqueueToast title description variant =>
    { s with toasts := s.toasts ++ [(title, description, variant)] }

/-- Run an update trace left to right. -/
def runEvents (s : DashState) (es : List Event) : DashState :=
  es.foldl applyEvent s

/-- State after one `checkPattern(symbol)` call settles with fetch
outcome `r`. -/
def checkPattern (symbol : String) (r : FetchResult) (s : DashState) : DashState :=
  runEvents s (checkPatternEvents symbol r)

/-- Initial dashboard state: every tracked symbol's result is `null` and
`isChecking` is the empty object (every key falsy). -/
def initDashState : DashState :=
  { stockResults := fun _ => none, isChecking := fun _ => false, toasts := [] }

/-- True exactly on the `setIsChecking(symbol, false)` event — used to
count clears of the in-flight marker in a trace. -/
def isClearEvent (symbol : String) : Event → Bool
  | .setChecking s b => s == symbol && b == false
  | _ => false

/-- The failure classes of `checkPattern` as the code partitions them:
fetch rejection (transport or timeout), non-2xx status, or a 2xx response
whose body fails to parse. -/
def isFailureResult : FetchResult → Bool
  | .transportError => true
  | .timeout => true
  | .success status body =>
    if 200 ≤ status ∧ status < 300 then
      match body with
      | .malformed => true
      | .wellFormed _ => false
    else true

/-! ### Stock card (Components/dashboard/StockCard.jsx) -/

/-- The props the card passes to its footer `Button`:
`variant={status === null ? "default" : "outline"}`,
`disabled={isChecking}`, and the rendered label. -/
structure ButtonProps where
  variant : String
  disabled : Bool
  label : String
deriving DecidableEq, Repr

/-- Embedding of the `Button` element rendered by `StockCard`. -/
def stockCardButton (status : Option Bool) (isChecking : Bool) : ButtonProps :=
  { variant := if status = none then "default" else "outline",
    disabled := isChecking,
    label :=
      if isChecking then "Checking..."
      else if status = none then "Check Pattern" else "Check Again" }

/-- The button of the card `Dashboard` renders for `symbol`: the card
receives `status={stockResults[symbol]}` and `isChecking={isChecking[symbol]}`. -/
def dashboardCardButton (s : DashState) (symbol : String) : ButtonProps :=
  stockCardButton (s.stockResults symbol) (s.isChecking symbol)

/-! ### Health monitor (Layout.jsx) -/

/-- Base URL in `Layout.jsx`:
`import.meta.env.VITE_API_BASE_URL || "http://localhost:5000"`.
JS `||` falls through on any falsy value, so an unset variable and an
empty string both yield the default. -/
def Layout_API_BASE_URL (env : Option String) : String :=
  match env with
  | some u => if u = "" then "http://localhost:5000" else u
  | none => "http://localhost:5000"

/-- URL of the health poll, from `fetch(API_BASE_URL + "/health")`. -/
def healthRequestUrl (env : Option String) : String :=
  Layout_API_BASE_URL env ++ "/health"

/-- Poll period: `setInterval(checkHealth, 10000)`. -/
def healthPollIntervalMs : Nat := 10000

/-- Per-poll deadline: `AbortSignal.timeout(10000)`. -/
def healthPollTimeoutMs : Nat := 10000

/-- The two health flags of `Layout`: `isBackendHealthy` and
`showHealthAlert`. -/
structure HealthState where
  isBackendHealthy : Bool
  showHealthAlert : Bool
deriving DecidableEq, Repr

/-- Initial health state: `useState(true)` / `useState(false)`. -/
def initHealthState : HealthState := ⟨true, false⟩

/-- Settlement of the health-poll fetch: a response with a status, a
transport failure, or the `AbortSignal.timeout(10000)` deadline. -/
inductive HealthFetch where
  | success (status : Nat) : HealthFetch
  | transportError : HealthFetch
  | timeout : HealthFetch
deriving DecidableEq, Repr

/-- Embedding of `checkHealth`: on `res.ok` set `(true, false)`; a non-ok
status throws, and any rejection (throw, transport failure, timeout) runs
the catch block, which sets `(false, true)`. -/
def checkHealth (r : HealthFetch) (_s : HealthState) : HealthState :=
  match r with
  | .success status =>
    if 200 ≤ status ∧ status < 300 then ⟨true, false⟩ else ⟨false, true⟩
  | .transportError => ⟨false, true⟩
  | .timeout => ⟨false, true⟩

/-- The user dismiss action: the banner (and its close button) is rendered
only when `showHealthAlert && !isBackendHealthy`, and clicking it runs
`setShowHealthAlert(false)`. In any other state there is no control, so
the action is the identity. -/
def dismiss (s : HealthState) : HealthState :=
  if s.showHealthAlert && !s.isBackendHealthy then
    { s with showHealthAlert := false }
  else s

/-! ### Claims about the check controller -/

/-- C1: for every tracked symbol, `checkPattern(symbol)` first sets the
in-flight marker to true, and on every settlement path (success, non-2xx
status, transport failure, timeout, malformed body) clears it exactly
once, so after the call settles the marker is false. -/
theorem checkPattern_clears_inflight (symbol : String) (r : FetchResult) (s : DashState) :
    (checkPatternEvents symbol r).head? = some (Event.setChecking symbol true) ∧
    (checkPatternEvents symbol r).countP (isClearEvent symbol) = 1 ∧
    (checkPattern symbol r s).isChecking symbol = false := by
  refine ⟨rfl, ?_, ?_⟩ <;>
  · cases r with
    | success status body =>
      by_cases hok : 200 ≤ status ∧ status < 300 <;>
        cases body <;>
          simp [checkPattern, runEvents, checkPatternEvents, tryEvents,
            catchHandlerEvents, successEvents, applyEvent, isClearEvent, hok]
    | transportError =>
      simp [checkPattern, runEvents, checkPatternEvents, tryEvents,
        catchHandlerEvents, applyEvent, isClearEvent]
    | timeout =>
      simp [checkPattern, runEvents, checkPatternEvents, tryEvents,
        catchHandlerEvents, applyEvent, isClearEvent]

/-- C2: every failure class of `checkPattern` — transport failure, client
timeout, non-2xx status, malformed body — ends identically: the symbol's
result is reset to `null` (unchecked, not an error value), exactly one
destructive ("alert") toast with the generic failure message is enqueued,
and the call settles normally (the in-flight marker ends false; no
exception escapes the catch). -/
theorem checkPattern_failure_uniform (symbol : String) (r : FetchResult) (s : DashState)
    (h : isFailureResult r = true) :
    (checkPattern symbol r s).stockResults symbol = none ∧
    (checkPattern symbol r s).toasts =
      s.toasts ++
        [("Error", "Could not reach the server or received an invalid response.",
          "destructive")] ∧
    (checkPattern symbol r s).isChecking symbol = false := by
  cases r with
  | success status body =>
    by_cases hok : 200 ≤ status ∧ status < 300
    · cases body with
      | malformed =>
        simp [checkPattern, runEvents, checkPatternEvents, tryEvents,
          catchHandlerEvents, applyEvent, hok]
      | wellFormed pd =>
        simp [isFailureResult, hok] at h
    · simp [checkPattern, runEvents, checkPatternEvents, tryEvents,
        catchHandlerEvents, applyEvent, hok]
  | transportError =>
    simp [checkPattern, runEvents, checkPatternEvents, tryEvents,
      catchHandlerEvents, applyEvent]
  | timeout =>
    simp [checkPattern, runEvents, checkPatternEvents, tryEvents,
      catchHandlerEvents, applyEvent]

/-- Witness for C2 at the spec's scenario: a timed-out check for MSFT. -/
theorem checkPattern_failure_uniform_witness :
    isFailureResult FetchResult.timeout = true ∧
    ((checkPattern "MSFT" FetchResult.timeout initDashState).stockResults "MSFT" = none ∧
     (checkPattern "MSFT" FetchResult.timeout initDashState).toasts =
       initDashState.toasts ++
         [("Error", "Could not reach the server or received an invalid response.",
           "destructive")] ∧
     (checkPattern "MSFT" FetchResult.timeout initDashState).isChecking "MSFT" = false) :=
  ⟨by decide, checkPattern_failure_uniform "MSFT" FetchResult.timeout initDashState (by decide)⟩

/-- C3: on a well-formed 2xx response, `checkPattern` stores the decoded
boolean (`true` = detected, `false` = not detected) and enqueues exactly
one toast whose variant is `"default"` (normal severity) when the pattern
is detected and `"destructive"` (alert severity) otherwise. -/
theorem checkPattern_success_outcome (symbol : String) (pd : Bool) (status : Nat)
    (s : DashState) (h1 : 200 ≤ status) (h2 : status < 300) :
    (checkPattern symbol (FetchResult.success status (Body.wellFormed pd)) s).stockResults
        symbol = some pd ∧
    (checkPattern symbol (FetchResult.success status (Body.wellFormed pd)) s).toasts =
      s.toasts ++
        [((if pd then "Cup & Handle Pattern Detected" else "No Pattern Detected"),
          "Finished analyzing " ++ symbol ++ ".",
          (if pd then "default" else "destructive"))] := by
  simp [checkPattern, runEvents, checkPatternEvents, tryEvents, successEvents,
    applyEvent, h1, h2]

/-- Witness for C3 at the spec's scenario: AAPL returns
`{pattern_detected: true}` with HTTP 200. -/
theorem checkPattern_success_outcome_witness :
    200 ≤ 200 ∧ 200 < 300 ∧
    ((checkPattern "AAPL" (FetchResult.success 200 (Body.wellFormed true))
          initDashState).stockResults "AAPL" = some true ∧
     (checkPattern "AAPL" (FetchResult.success 200 (Body.wellFormed true))
          initDashState).toasts =
       initDashState.toasts ++
         [("Cup & Handle Pattern Detected", "Finished analyzing AAPL.", "default")] ) :=
  ⟨by decide, by decide, by
    have h := checkPattern_success_outcome "AAPL" true 200 initDashState
      (by decide) (by decide)
    simpa using h⟩

/-- C10: whenever a symbol's in-flight marker is true, the card the
dashboard renders for that symbol passes `disabled = true` to its check
button, so no new check can be started from the card while one is pending. -/
theorem stockCard_button_disabled (s : DashState) (symbol : String)
    (h : s.isChecking symbol = true) :
    (dashboardCardButton s symbol).disabled = true := by
  simp [dashboardCardButton, stockCardButton, h]

/-- Witness for C10: a state where AAPL is in flight. -/
theorem stockCard_button_disabled_witness :
    (applyEvent initDashState (Event.setChecking "AAPL" true)).isChecking "AAPL" = true ∧
    (dashboardCardButton (applyEvent initDashState (Event.setChecking "AAPL" true))
        "AAPL").disabled = true :=
  ⟨by decide, stockCard_button_disabled
    (applyEvent initDashState (Event.setChecking "AAPL" true)) "AAPL" (by decide)⟩

/-! ### Claims about the health monitor -/

/-- C4: the health step relation: the initial state is Healthy/Hidden; a
2xx poll yields Healthy/Hidden from every state; a failed poll (non-2xx
status, transport error, or timeout) yields Unhealthy/Visible from every
state — in particular from Unhealthy/Hidden, re-surfacing a dismissed
alert. -/
theorem checkHealth_step_relation :
    initHealthState = ⟨true, false⟩ ∧
    (∀ (s : HealthState) (status : Nat), 200 ≤ status → status < 300 →
      checkHealth (HealthFetch.success status) s = ⟨true, false⟩) ∧
    (∀ (s : HealthState) (status : Nat), ¬(200 ≤ status ∧ status < 300) →
      checkHealth (HealthFetch.success status) s = ⟨false, true⟩) ∧
    (∀ s : HealthState, checkHealth HealthFetch.transportError s = ⟨false, true⟩) ∧
    (∀ s : HealthState, checkHealth HealthFetch.timeout s = ⟨false, true⟩) := by
  refine ⟨rfl, ?_, ?_, fun s => rfl, fun s => rfl⟩
  · intro s status h1 h2
    simp [checkHealth, h1, h2]
  · intro s status h
    simp [checkHealth, h]

/-- Witness for C4: a 200 poll heals from Unhealthy/Hidden, and a 500 poll
re-surfaces the alert from Unhealthy/Hidden. -/
theorem checkHealth_step_relation_witness :
    200 ≤ 200 ∧ 200 < 300 ∧ ¬(200 ≤ 500 ∧ 500 < 300) ∧
    checkHealth (HealthFetch.success 200) ⟨false, false⟩ = ⟨true, false⟩ ∧
    checkHealth (HealthFetch.success 500) ⟨false, false⟩ = ⟨false, true⟩ :=
  ⟨by decide, by decide, by decide,
   checkHealth_step_relation.2.1 ⟨false, false⟩ 200 (by decide) (by decide),
   checkHealth_step_relation.2.2.1 ⟨false, false⟩ 500 (by decide)⟩

/-- C5: dismiss sends Unhealthy/Visible to Unhealthy/Hidden, never changes
`isBackendHealthy`, and is a no-op in every state where the banner (and
so the dismiss control) is not rendered. -/
theorem dismiss_transition :
    dismiss ⟨false, true⟩ = ⟨false, false⟩ ∧
    (∀ s : HealthState, (dismiss s).isBackendHealthy = s.isBackendHealthy) ∧
    (∀ s : HealthState, (s.showHealthAlert && !s.isBackendHealthy) = false →
      dismiss s = s) := by
  refine ⟨rfl, ?_, ?_⟩
  · intro s
    by_cases h : (s.showHealthAlert && !s.isBackendHealthy) = true <;>
      simp [dismiss, h]
  · intro s h
    simp [dismiss, h]

/-- Witness for C5: dismiss is a no-op in the Healthy/Hidden state. -/
theorem dismiss_transition_witness :
    ((false : Bool) && !(true : Bool)) = false ∧
    dismiss ⟨true, false⟩ = ⟨true, false⟩ :=
  ⟨by decide, dismiss_transition.2.2 ⟨true, false⟩ (by decide)⟩

/-! ### Claims about the toast queue -/

/-- Counterexample for C6: `toast` returns no value. The claim says the
call returns the new Notification's id; at a concrete call the JS function
(whose body has no return statement) yields `undefined`, not the id of the
toast it appended. -/
theorem toastCall_ret_cex :
    (toastCall "abc0042" "T" "D" (some "default") []).toasts =
      [⟨"abc0042", "T", "D", "default"⟩] ∧
    (toastCall "abc0042" "T" "D" (some "default") []).ret = none ∧
    (toastCall "abc0042" "T" "D" (some "default") []).ret ≠ some "abc0042" := by
  decide

/-- C6 amended: every `toast` call succeeds, appends the new notification
to the end of the sequence, schedules exactly one automatic removal after
3000 ms — but returns no value (JS `undefined`), not the id. -/
theorem toastCall_spec (id title description : String) (variant : Option String)
    (prev : List Toast) :
    toastCall id title description variant prev =
      { toasts := prev ++ [⟨id, title, description, variant.getD "default"⟩],
        scheduled := [(id, 3000)],
        ret := none } := by
  rfl

/-- C7: insertion order is preserved: enqueue appends at the end; when the
TTL of a toast whose id occurs in no other entry elapses, exactly that
entry is removed and the others keep their relative order; and the
scheduled removal delay is 3000 ms regardless of queue size. -/
theorem toast_queue_order (id title description : String) (variant : Option String)
    (prev l₁ l₂ : List Toast) (t : Toast)
    (h₁ : ∀ u ∈ l₁, u.id ≠ t.id) (h₂ : ∀ u ∈ l₂, u.id ≠ t.id) :
    (toastCall id title description variant prev).toasts =
      prev ++ [⟨id, title, description, variant.getD "default"⟩] ∧
    removeToast t.id (l₁ ++ t :: l₂) = l₁ ++ l₂ ∧
    (toastCall id title description variant prev).scheduled = [(id, 3000)] := by
  refine ⟨rfl, ?_, rfl⟩
  simp only [removeToast, List.filter_append, List.filter_cons]
  have ht : (t.id != t.id) = false := by simp
  rw [ht]
  simp only [Bool.false_eq_true, if_false]
  rw [List.filter_eq_self.2 (fun u hu => by simpa using h₁ u hu),
    List.filter_eq_self.2 (fun u hu => by simpa using h₂ u hu)]

/-- Witness for C7: expiring the middle toast of a three-toast queue with
distinct ids removes exactly that toast. -/
theorem toast_queue_order_witness :
    (∀ u ∈ [(⟨"a1", "t1", "d1", "default"⟩ : Toast)],
        u.id ≠ (⟨"b2", "t2", "d2", "destructive"⟩ : Toast).id) ∧
    (∀ u ∈ [(⟨"c3", "t3", "d3", "default"⟩ : Toast)],
        u.id ≠ (⟨"b2", "t2", "d2", "destructive"⟩ : Toast).id) ∧
    ((toastCall "d4" "t4" "d4" none []).toasts =
        [⟨"d4", "t4", "d4", "default"⟩] ∧
     removeToast "b2"
        ([⟨"a1", "t1", "d1", "default"⟩] ++
          (⟨"b2", "t2", "d2", "destructive"⟩ : Toast) :: [⟨"c3", "t3", "d3", "default"⟩]) =
       [⟨"a1", "t1", "d1", "default"⟩] ++ [⟨"c3", "t3", "d3", "default"⟩] ∧
     (toastCall "d4" "t4" "d4" none []).scheduled = [("d4", 3000)]) :=
  ⟨by decide, by decide,
   toast_queue_order "d4" "t4" "d4" none []
     [⟨"a1", "t1", "d1", "default"⟩] [⟨"c3", "t3", "d3", "default"⟩]
     ⟨"b2", "t2", "d2", "destructive"⟩ (by decide) (by decide)⟩

/-- Counterexample for C8: the notification record has no `createdAt`
field. At a concrete `toast` call, the created record's field list is
exactly id, title, description, variant, and looking up `createdAt`
yields nothing. -/
theorem toast_fields_cex :
    ((toastCall "abc0007" "T" "D" (some "default") []).toasts.map Toast.fields) =
      [[("id", "abc0007"), ("title", "T"), ("description", "D"),
        ("variant", "default")]] ∧
    List.lookup "createdAt"
      (Toast.fields ⟨"abc0007", "T", "D", "default"⟩) = none := by
  decide

/-- C8 amended: every notification created by `toast` is a record with
exactly the fields id, title, description and variant (the severity,
`"default"` = normal or `"destructive"` = alert as passed by the callers);
there is no `createdAt` field. -/
theorem toast_record_shape (id title description : String) (variant : Option String)
    (prev : List Toast) :
    (toastCall id title description variant prev).toasts =
      prev ++ [⟨id, title, description, variant.getD "default"⟩] ∧
    Toast.fields ⟨id, title, description, variant.getD "default"⟩ =
      [("id", id), ("title", title), ("description", description),
       ("variant", variant.getD "default")] ∧
    (∀ t : Toast, List.lookup "createdAt" (Toast.fields t) = none) := by
  refine ⟨rfl, rfl, ?_⟩
  intro t
  simp [Toast.fields, List.lookup]

/-! ### Claims about the base URL -/

/-- Counterexample for C9: the per-symbol pattern check ignores the
environment override. With the override set to a concrete non-local
address, `Dashboard.jsx`'s base URL is still the hard-coded local one. -/
theorem dashboard_base_url_cex :
    Dashboard_API_BASE_URL (some "http://api.example.com") = "http://localhost:5000" ∧
    Dashboard_API_BASE_URL (some "http://api.example.com") ≠ "http://api.example.com" ∧
    patternRequestUrl (some "http://api.example.com") "AAPL" =
      "http://localhost:5000/api/pattern?symbol=AAPL" := by
  decide

/-- C9 amended: only the health poll's base URL honours the environment
override (a set, non-empty value wins; otherwise the local default); the
pattern-check requests always use the hard-coded local address. -/
theorem base_url_spec (env : Option String) (u symbol : String) (hu : u ≠ "") :
    Layout_API_BASE_URL (some u) = u ∧
    Layout_API_BASE_URL none = "http://localhost:5000" ∧
    healthRequestUrl env = Layout_API_BASE_URL env ++ "/health" ∧
    Dashboard_API_BASE_URL env = "http://localhost:5000" ∧
    patternRequestUrl env symbol =
      "http://localhost:5000" ++ "/api/pattern?symbol=" ++ symbol := by
  refine ⟨?_, rfl, rfl, rfl, rfl⟩
  simp [Layout_API_BASE_URL, hu]

/-- Witness for C9's amended statement with the override set. -/
theorem base_url_spec_witness :
    ("http://api.example.com" : String) ≠ "" ∧
    (Layout_API_BASE_URL (some "http://api.example.com") = "http://api.example.com" ∧
     Layout_API_BASE_URL none = "http://localhost:5000" ∧
     healthRequestUrl (some "http://api.example.com") =
       Layout_API_BASE_URL (some "http://api.example.com") ++ "/health" ∧
     Dashboard_API_BASE_URL (some "http://api.example.com") = "http://localhost:5000" ∧
     patternRequestUrl (some "http://api.example.com") "MSFT" =
       "http://localhost:5000" ++ "/api/pattern?symbol=" ++ "MSFT") :=
  ⟨by decide, base_url_spec (some "http://api.example.com") "http://api.example.com"
    "MSFT" (by decide)⟩
